import Mathlib

/-!
Shallow embedding of the OPA python client (`opa_client/opa.py`, class
`OpaClient`) and proofs about its URL resolution, policy AST walking and
resource-operation result handling.

Conventions of the embedding:
- Python dict lookups that may yield `None` become `Option`; iterating a
  `None` (a `TypeError` at run time) is modelled as an `Option.none` result
  of the enclosing operation.
- HTTP round trips are modelled by passing the response (status and decoded
  body fields) as explicit arguments; the request a function issues is part
  of its returned value, so "no request is made" is observable.
- A raised exception becomes a dedicated constructor carrying the two
  arguments the source passes to the exception class.
-/

namespace Opa

/-- Python's `str.lstrip()` with no argument on the character list: leading
whitespace characters are removed until the first non-whitespace one. -/
def lstripChars : List Char → List Char
  | [] => []
  | c :: rest => if c.isWhitespace then lstripChars rest else c :: rest

/-- Python's `host.lstrip()` as run by `OpaClient.__init__` (opa.py line 62). -/
def pyLstrip (s : String) : String := ⟨lstripChars s.data⟩

/-- Python's `s.startswith(p)`: `p`'s characters are a prefix of `s`'s. -/
def pyStartswith (s p : String) : Bool := p.data.isPrefixOf s.data

/-- Python truthiness of the `cert` constructor argument: `None` and the
empty path are falsy (`if not cert:` at opa.py line 76). -/
def certFalsy : Option String → Bool
  | none => true
  | some path => path == ""

/-- `self.__policy_root = "{}/policies/{}"` (opa.py line 65) instantiated
with the root URL and a resource name. -/
def policy_root (rootURL name : String) : String := rootURL ++ "/policies/" ++ name

/-- `self.__data_root = "{}/data/{}"` (opa.py line 66) instantiated with the
root URL and a resource name. -/
def data_root (rootURL name : String) : String := rootURL ++ "/data/" ++ name

/-- Outcome of `OpaClient.__init__` (opa.py lines 52-103): either the
resolved root URL together with the secure flag, or a raised `SSLError`
carrying the two arguments the source passes it. -/
inductive InitResult where
  | ok (rootURL : String) (secure : Bool)
  | sslError (arg1 arg2 : String)
  deriving DecidableEq, Repr

/-- `OpaClient.__init__` (opa.py lines 52-103) up to its network-free root
URL resolution: the host is `lstrip`ped; with `ssl` and a falsy `cert` an
`SSLError` is raised; a host already starting with `https://` or `http://`
is used verbatim as the authority (the latter clashing with `ssl=True`);
otherwise the schema chosen by `ssl` is prepended.  The root URL is
`"{}:{}/{}".format(host-or-schema+host, port, version)`. -/
def opaClientInit (host : String) (port : Nat) (version : String) (ssl : Bool)
    (cert : Option String) : InitResult :=
  let host := pyLstrip host
  let schema := if ssl then "https://" else "http://"
  if certFalsy cert && ssl then
    .sslError "ssl=True" "Make sure you  provide cert file"
  else if pyStartswith host "https://" then
    .ok (host ++ ":" ++ toString port ++ "/" ++ version) ssl
  else if pyStartswith host "http://" then
    if ssl then
      .sslError "ssl=True" "With ssl enabled not possible to have connection with http"
    else
      .ok (host ++ ":" ++ toString port ++ "/" ++ version) ssl
  else
    .ok (schema ++ host ++ ":" ++ toString port ++ "/" ++ version) ssl

/-- One entry of `ast.package.path`: a JSON object whose `value` field the
walker reads (`path.get("value")`, opa.py lines 460 and 487). -/
structure Segment where
  value : String
  deriving DecidableEq, Repr

/-- The `head` object of a rule; the walker reads `rule.get("head").get("name")`
(opa.py lines 466 and 492). -/
structure RuleHead where
  name : String
  deriving DecidableEq, Repr

/-- One entry of `ast.rules`: its head and the truthiness of its `default`
marker (`rule.get("default")`, opa.py lines 463 and 490). -/
structure Rule where
  head : RuleHead
  default : Bool
  deriving DecidableEq, Repr

/-- The `package` object of a policy AST.  `path` is `Option`al because
`.get("path")` on a package without the key yields `None` in Python. -/
structure Package where
  path : Option (List Segment)
  deriving DecidableEq, Repr

/-- A policy AST as the walker reads it: `ast.package` and `ast.rules`. -/
structure AST where
  package : Package
  rules : List Rule
  deriving DecidableEq, Repr

/-- The package-path walk shared by `__get_policies_info` (opa.py lines
458-460) and `__check` (lines 484-487):
`permission_url = root; for path in ast.package.path: permission_url += "/" + path.get("value")`.
When the `path` key is absent Python iterates `None` and raises `TypeError`;
that failure is the `none` result here.  `walkStep` is the loop body. -/
def walkStep (url : String) (seg : Segment) : String := url ++ "/" ++ seg.value

/-- The match on the package's `path` key around the walk loop; see
`walkStep` for the body. -/
def walkPackagePath (rootURL : String) (pkg : Package) : Option String :=
  match pkg.path with
  | none => none
  | some segs => some (segs.foldl walkStep rootURL)

/-- Written from the spec's words, for comparison with `walkPackagePath`:
the namespace suffix obtained by appending `'/' +` each path segment's
`value` field, in order. -/
def specJoinedPath : List Segment → String
  | [] => ""
  | seg :: rest => "/" ++ seg.value ++ specJoinedPath rest

/-- The rule loop of `__get_policies_info` (opa.py lines 462-467): every rule
whose `default` marker is truthy contributes `permission_url + "/" + head name`
to `temp_rules`, in order; other rules are skipped by `continue`. -/
def infoStep (permissionURL : String) (temp_rules : List String) (rule : Rule) :
    List String :=
  if !rule.default then temp_rules
  else temp_rules ++ [permissionURL ++ "/" ++ rule.head.name]

/-- The fold of `infoStep` over `ast.rules`, starting from the empty
`temp_rules` list. -/
def policyRuleEndpoints (permissionURL : String) (rules : List Rule) : List String :=
  rules.foldl (infoStep permissionURL) []

/-- One value of the dictionary `__get_policies_info` builds per policy:
`{"path": temp_policy, "rules": temp_rules}` (opa.py line 468). -/
structure PolicyInfo where
  path : List String
  rules : List String
  deriving DecidableEq, Repr

/-- The per-policy body of `__get_policies_info` (opa.py lines 454-468):
walk the package path, record it as the one-element `path` list, and collect
the default rules' endpoints.  `none` models the `TypeError` of walking an
absent package path. -/
def policyInfoOf (rootURL : String) (ast : AST) : Option PolicyInfo :=
  match walkPackagePath rootURL ast.package with
  | none => none
  | some permissionURL =>
      some { path := [permissionURL]
             rules := policyRuleEndpoints permissionURL ast.rules }

/-- State of `__check`'s rule scan (opa.py lines 483-495): the accumulated
`permission_url` and the `find` flag. -/
structure RuleSearch where
  permissionURL : String
  find : Bool
  deriving DecidableEq, Repr

/-- The rule loop of `__check` (opa.py lines 489-495): for every rule with a
truthy `default` marker whose head name equals the requested rule name the
name is appended to `permission_url` and `find` is set; there is no break,
so later matches append again. -/
def checkStep (ruleName : String) (st : RuleSearch) (rule : Rule) : RuleSearch :=
  if !rule.default then st
  else if rule.head.name == ruleName then
    { permissionURL := st.permissionURL ++ "/" ++ rule.head.name, find := true }
  else st

/-- The fold of `checkStep` over `ast.rules`, starting from the walked
namespace URL with `find = False`. -/
def resolveRule (permissionURL ruleName : String) (rules : List Rule) : RuleSearch :=
  rules.foldl (checkStep ruleName) { permissionURL := permissionURL, find := false }

/-- The POST that `__check` issues when the rule is found (opa.py lines
497-503): target URL and the JSON-encoded input document. -/
structure PostRequest where
  url : String
  body : String
  deriving DecidableEq, Repr

/-- Outcome of `__check`: the evaluation response returned on success, or a
raised `CheckPermissionError` with the two arguments of opa.py lines 509-511. -/
inductive CheckResult where
  | ok (request : PostRequest) (response : String)
  | checkPermissionError (arg1 arg2 : String)
  deriving DecidableEq, Repr

/-- `__check` (opa.py lines 472-511).  `policyName` only selects which
policy the service's GET returns, so the GET response (`result`, `None` when
the body has no such key) is an explicit argument, as is the evaluation
service's decoded reply `post` to the POST request.  A falsy `result` skips
the walk and raises; an AST whose package path is absent makes the walk
itself raise `TypeError` (outer `none`). -/
def check_permission (rootURL policyName ruleName inputData : String)
    (result : Option AST) (post : PostRequest → String) : Option CheckResult :=
  match result with
  | none =>
      some (.checkPermissionError (ruleName ++ " rule not found")
        "policy or rule name not correct")
  | some ast =>
      match walkPackagePath rootURL ast.package with
      | none => none
      | some permissionURL =>
          let st := resolveRule permissionURL ruleName ast.rules
          if st.find then
            some (.ok { url := st.permissionURL, body := inputData }
              (post { url := st.permissionURL, body := inputData }))
          else
            some (.checkPermissionError (ruleName ++ " rule not found")
              "policy or rule name not correct")

/-- Outcome of `__get_opa_raw_data` (opa.py lines 262-274): the decoded
response body, the tuple `(code, "not found")` the final line returns for a
non-200 status, or the `AttributeError` the plain-transport branch raises. -/
inductive RawDataResult where
  | body (decoded : String)
  | pair (status : Nat) (msg : String)
  | attributeError
  deriving DecidableEq, Repr

/-- `__get_opa_raw_data` (opa.py lines 262-274), both transport branches.
On the plain transport (`if not self.__secure`), line 267 calls
`response.jsons()` — `requests.Response` has no such attribute (a typo for
`.json()`), so every call raises `AttributeError` before the status is
examined.  On the secure transport the body is decoded with `json.loads`
and line 274 runs: `return response if code == 200 else (code, "not found")`.
`decoded` is the decoded response body of the secure branch. -/
def get_opa_raw_data (secure : Bool) (code : Nat) (decoded : String) : RawDataResult :=
  if !secure then .attributeError
  else if code == 200 then .body decoded else .pair code "not found"

/-- `__update_opa_data` (opa.py lines 276-292): a PUT to the data URL, then
`return True if code == 204 else False`.  The first component is the URL the
request goes to; no branch raises. -/
def update_or_create_opa_data (rootURL endpoint : String) (code : Nat) : String × Bool :=
  (data_root rootURL endpoint, if code == 204 then true else false)

/-- An HTTP response as the policy-update and delete paths read it: the
status and the decoded body's `code` and `message` fields (each `None` when
the key is absent). -/
structure HttpResp where
  status : Nat
  code : Option String
  message : Option String
  deriving DecidableEq, Repr

/-- Result of a policy update: the returned boolean or a raised
`RegoParseError` with the response body's `code` and `message` fields. -/
inductive PolicyUpdate where
  | ok (value : Bool)
  | regoParseError (code message : Option String)
  deriving DecidableEq, Repr

/-- What a call to `__update_opa_policy_fromstring` does: the PUT request it
issues (`none` when no request is made) and its result. -/
structure StringUpdateOutcome where
  request : Option String
  result : PolicyUpdate
  deriving DecidableEq, Repr

/-- `__update_opa_policy_fromstring` (opa.py lines 299-329): a falsy (empty)
policy string skips the request entirely and returns `False`; otherwise the
policy is PUT to the policy URL, status 200 returns `True` and any other
status raises `RegoParseError(body.code, body.message)`. -/
def update_opa_policy_fromstring (rootURL endpoint newPolicy : String)
    (resp : HttpResp) : StringUpdateOutcome :=
  if newPolicy ≠ "" then
    if resp.status == 200 then
      { request := some (policy_root rootURL endpoint), result := .ok true }
    else
      { request := some (policy_root rootURL endpoint)
        result := .regoParseError resp.code resp.message }
  else
    { request := none, result := .ok false }

/-- What a call to `__update_opa_policy_fromfile` does: the file it opens
(`none` when none is read), the request of the inner fromstring call, and
its result (`none` models Python's implicit `return None`). -/
structure FileUpdateOutcome where
  fileRead : Option String
  request : Option String
  result : Option PolicyUpdate
  deriving DecidableEq, Repr

/-- `__update_opa_policy_fromfile` (opa.py lines 294-297): a truthy filepath
is opened and its contents forwarded to `__update_opa_policy_fromstring`; a
falsy filepath skips the body, returning Python's `None`. -/
def update_opa_policy_fromfile (rootURL endpoint filepath contents : String)
    (resp : HttpResp) : FileUpdateOutcome :=
  if filepath ≠ "" then
    let o := update_opa_policy_fromstring rootURL endpoint contents resp
    { fileRead := some filepath, request := o.request, result := some o.result }
  else
    { fileRead := none, request := none, result := none }

/-- Outcome of `__delete_opa_policy` (opa.py lines 373-393): the returned
`True` or a raised `PolicyNotFoundError` with the body's fields. -/
inductive DeletePolicyResult where
  | ok (value : Bool)
  | policyNotFoundError (code message : Option String)
  deriving DecidableEq, Repr

/-- `__delete_opa_policy` (opa.py lines 373-393): status 200 returns `True`;
any other status raises `PolicyNotFoundError(body.code, body.message)`. -/
def delete_opa_policy (status : Nat) (code message : Option String) : DeletePolicyResult :=
  if status == 200 then .ok true else .policyNotFoundError code message

/-- Outcome of `__delete_opa_data` (opa.py lines 414-435): the returned
`True` or a raised `DeleteDataError` with the body's fields. -/
inductive DeleteDataResult where
  | ok (value : Bool)
  | deleteDataError (code message : Option String)
  deriving DecidableEq, Repr

/-- `__delete_opa_data` (opa.py lines 414-435): status 204 returns `True`;
any other status raises `DeleteDataError(body.code, body.message)`. -/
def delete_opa_data (status : Nat) (code message : Option String) : DeleteDataResult :=
  if status == 204 then .ok true else .deleteDataError code message

/-! Helper lemmas shared by the claim theorems. -/

/-- The walker's left fold appends exactly the spec's slash-joined suffix. -/
theorem walk_foldl_eq (segs : List Segment) : ∀ R : String,
    segs.foldl walkStep R = R ++ specJoinedPath segs := by
  induction segs with
  | nil => intro R; simp [specJoinedPath, String.append_empty]
  | cons seg rest ih =>
      intro R
      rw [List.foldl_cons, ih, specJoinedPath, walkStep]
      simp only [String.append_assoc]

/-- The rule loop of `__get_policies_info` keeps exactly the default-marked
rules, in order, each as `permissionURL + "/" +` its head name. -/
theorem ruleEndpoints_foldl (permissionURL : String) (rules : List Rule) :
    ∀ acc : List String,
      rules.foldl (infoStep permissionURL) acc =
      acc ++ (rules.filter (fun r => r.default)).map
        (fun r => permissionURL ++ "/" ++ r.head.name) := by
  induction rules with
  | nil => intro acc; simp
  | cons r rest ih =>
      intro acc
      rw [List.foldl_cons, List.filter_cons]
      cases hd : r.default
      · simp [infoStep, hd, ih]
      · simp [infoStep, hd, ih]

/-- `__check`'s scan sets `find` exactly when some default-marked rule's head
name equals the requested one. -/
theorem resolveRule_find (permissionURL ruleName : String) (rules : List Rule) :
    (resolveRule permissionURL ruleName rules).find =
      rules.any (fun r => r.default && r.head.name == ruleName) := by
  have aux : ∀ (rs : List Rule) (st : RuleSearch),
      (rs.foldl (checkStep ruleName) st).find =
      (st.find || rs.any (fun r => r.default && r.head.name == ruleName)) := by
    intro rs
    induction rs with
    | nil => intro st; simp
    | cons r rest ih =>
        intro st
        rw [List.foldl_cons]
        cases hd : r.default <;> cases hn : r.head.name == ruleName <;>
          simp [checkStep, hd, hn, ih]
  simpa [resolveRule] using aux rules { permissionURL := permissionURL, find := false }

/-- A string starting with `http://` cannot also start with `https://`. -/
theorem pyStartswith_http_not_https (s : String)
    (h : pyStartswith s "http://" = true) : pyStartswith s "https://" = false := by
  by_contra hc
  rw [Bool.not_eq_false] at hc
  rw [pyStartswith, List.isPrefixOf_iff_prefix] at h hc
  rcases List.prefix_or_prefix_of_prefix h hc with h1 | h1
  · exact absurd h1 (by decide)
  · exact absurd h1 (by decide)

/-! Claim theorems. -/

/-- C1, counterexample: with an absent `package.path` key (`None` in Python)
the walker does not produce the bare root URL `R`; the loop `for path in None`
raises `TypeError`, modelled as `none`. -/
theorem C1_absent_path_counterexample :
    walkPackagePath "http://localhost:8181/v1" { path := none } = none ∧
    walkPackagePath "http://localhost:8181/v1" { path := none } ≠
      some "http://localhost:8181/v1" := by
  exact ⟨rfl, by decide⟩

/-- C1 (amended): for every root URL `R` and every present package path, the
AST walker used by describe-all-policies and the permission check produces
`R` followed by `'/' +` each segment's `value` field in order — in particular
`R/a/b/c` for segments `[a, b, c]` — and with an empty (but present) path the
result is just `R`.  (An absent path instead raises `TypeError`; see the
counterexample.) -/
theorem C1_namespace_resolution (R : String) (segs : List Segment) :
    walkPackagePath R { path := some segs } = some (R ++ specJoinedPath segs) ∧
    walkPackagePath R { path := some [] } = some R ∧
    (∀ a b c : String,
      walkPackagePath R { path := some [⟨a⟩, ⟨b⟩, ⟨c⟩] } =
        some (R ++ "/" ++ a ++ "/" ++ b ++ "/" ++ c)) := by
  refine ⟨?_, ?_, fun a b c => rfl⟩
  · simp [walkPackagePath, walk_foldl_eq]
  · simp [walkPackagePath]

/-- C2: describe-all-policies lists a rule endpoint (namespace URL + `/` +
rule head name) exactly for the default-marked rules, in order; and over the
rule set with a default rule `hello` and a non-default rule `secret`,
single-rule resolution does not find `secret` but finds `hello` at endpoint
`ns/hello`. -/
theorem C2_default_rules_only (R ns : String) (segs : List Segment)
    (rules : List Rule) :
    (policyInfoOf R { package := { path := some segs }, rules := rules }).map
        (fun info => info.rules) =
      some ((rules.filter (fun r => r.default)).map
        (fun r => (R ++ specJoinedPath segs) ++ "/" ++ r.head.name)) ∧
    (resolveRule ns "secret"
      [{ head := { name := "hello" }, default := true },
       { head := { name := "secret" }, default := false }]).find = false ∧
    resolveRule ns "hello"
      [{ head := { name := "hello" }, default := true },
       { head := { name := "secret" }, default := false }] =
      { permissionURL := ns ++ "/" ++ "hello", find := true } := by
  refine ⟨?_, rfl, rfl⟩
  simp [policyInfoOf, walkPackagePath, walk_foldl_eq, policyRuleEndpoints,
    ruleEndpoints_foldl]

/-- C3, counterexample: when the requested rule is not among the default
rules, `__check` raises `CheckPermissionError(f"<rule> rule not found",
"policy or rule name not correct")` — neither message part contains the
policy name (here `mypolicy`), so the error does not name the policy. -/
theorem C3_error_omits_policy_name :
    check_permission "http://localhost:8181/v1" "mypolicy" "allowed" "input1"
        (some { package := { path := some [] }
                rules := [{ head := { name := "other" }, default := true }] })
        (fun _ => "response1") =
      some (.checkPermissionError "allowed rule not found"
        "policy or rule name not correct") ∧
    ¬ "mypolicy".data <:+: "allowed rule not found".data ∧
    ¬ "mypolicy".data <:+: "policy or rule name not correct".data := by
  refine ⟨rfl, by decide, by decide⟩

/-- C3 (amended): for every input document, policy name and rule name, if no
default-marked rule of the policy's AST has the requested name,
`check_permission` raises a permission-check error whose message names the
rule — but not the policy; if a matching default rule exists, it POSTs the
input document to the resolved endpoint and returns the service's decoded
reply. -/
theorem C3_check_resolution (R policyName ruleName inputData : String)
    (segs : List Segment) (rules : List Rule) (post : PostRequest → String) :
    ((rules.any (fun r => r.default && r.head.name == ruleName)) = false →
      check_permission R policyName ruleName inputData
          (some { package := { path := some segs }, rules := rules }) post =
        some (.checkPermissionError (ruleName ++ " rule not found")
          "policy or rule name not correct") ∧
      ruleName.data <:+: (ruleName ++ " rule not found").data) ∧
    ((rules.any (fun r => r.default && r.head.name == ruleName)) = true →
      check_permission R policyName ruleName inputData
          (some { package := { path := some segs }, rules := rules }) post =
        some (.ok
          { url := (resolveRule (R ++ specJoinedPath segs) ruleName rules).permissionURL
            body := inputData }
          (post
            { url := (resolveRule (R ++ specJoinedPath segs) ruleName rules).permissionURL
              body := inputData }))) := by
  constructor
  · intro hnone
    have hfind : (resolveRule (R ++ specJoinedPath segs) ruleName rules).find = false := by
      rw [resolveRule_find]; exact hnone
    constructor
    · simp [check_permission, walkPackagePath, walk_foldl_eq, hfind]
    · rw [String.data_append]
      exact (List.prefix_append _ _).isInfix
  · intro hsome
    have hfind : (resolveRule (R ++ specJoinedPath segs) ruleName rules).find = true := by
      rw [resolveRule_find]; exact hsome
    simp [check_permission, walkPackagePath, walk_foldl_eq, hfind]

/-- C3, witness: the amended theorem applied to a concrete policy with a
default rule `hello`, once in the found case and once in the not-found case. -/
theorem C3_check_resolution_witness :
    check_permission "http://localhost:8181/v1" "example" "hello" "input1"
        (some { package := { path := some [{ value := "play" }] }
                rules := [{ head := { name := "hello" }, default := true },
                          { head := { name := "secret" }, default := false }] })
        (fun _ => "allowed") =
      some (.ok { url := "http://localhost:8181/v1/play/hello", body := "input1" }
        "allowed") ∧
    check_permission "http://localhost:8181/v1" "example" "secret" "input1"
        (some { package := { path := some [{ value := "play" }] }
                rules := [{ head := { name := "hello" }, default := true },
                          { head := { name := "secret" }, default := false }] })
        (fun _ => "allowed") =
      some (.checkPermissionError "secret rule not found"
        "policy or rule name not correct") := by
  constructor
  · have h := (C3_check_resolution "http://localhost:8181/v1" "example" "hello" "input1"
      [{ value := "play" }]
      [{ head := { name := "hello" }, default := true },
       { head := { name := "secret" }, default := false }]
      (fun _ => "allowed")).2 (by decide)
    rw [h]; rfl
  · have h := ((C3_check_resolution "http://localhost:8181/v1" "example" "secret" "input1"
      [{ value := "play" }]
      [{ head := { name := "hello" }, default := true },
       { head := { name := "secret" }, default := false }]
      (fun _ => "allowed")).1 (by decide)).1
    rw [h]; rfl

/-- C4: for every data payload and endpoint, `update_or_create_opa_data`
returns `True` exactly when the service's status is 204; any other status
(200, 400, 500 among them) returns `False`.  The model is a total function —
no branch of the source raises. -/
theorem C4_data_update_status (rootURL endpoint : String) :
    (∀ code : Nat,
      (update_or_create_opa_data rootURL endpoint code).2 = true ↔ code = 204) ∧
    (update_or_create_opa_data rootURL endpoint 200).2 = false ∧
    (update_or_create_opa_data rootURL endpoint 400).2 = false ∧
    (update_or_create_opa_data rootURL endpoint 500).2 = false ∧
    (update_or_create_opa_data rootURL endpoint 204).2 = true := by
  refine ⟨fun code => ?_, rfl, rfl, rfl, rfl⟩
  by_cases h : code = 204 <;> simp [update_or_create_opa_data, h]

/-- C5: for every non-empty policy source and endpoint,
`update_opa_policy_fromstring` returns `True` exactly when the status is
200; any other status raises `RegoParseError` carrying the response body's
`code` and `message` fields. -/
theorem C5_policy_update_fromstring (rootURL endpoint newPolicy : String)
    (resp : HttpResp) (hne : newPolicy ≠ "") :
    ((update_opa_policy_fromstring rootURL endpoint newPolicy resp).result =
        .ok true ↔ resp.status = 200) ∧
    (resp.status = 200 →
      update_opa_policy_fromstring rootURL endpoint newPolicy resp =
        { request := some (policy_root rootURL endpoint), result := .ok true }) ∧
    (resp.status ≠ 200 →
      update_opa_policy_fromstring rootURL endpoint newPolicy resp =
        { request := some (policy_root rootURL endpoint)
          result := .regoParseError resp.code resp.message }) := by
  refine ⟨?_, fun h => ?_, fun h => ?_⟩
  · by_cases hs : resp.status = 200 <;>
      simp [update_opa_policy_fromstring, ne_eq, hne, hs]
  · simp [update_opa_policy_fromstring, ne_eq, hne, h]
  · simp [update_opa_policy_fromstring, ne_eq, hne, h]

/-- C5, witness: a non-empty policy at status 200 succeeds; at status 400 the
parse error carries the body's code and message. -/
theorem C5_policy_update_fromstring_witness :
    (update_opa_policy_fromstring "http://localhost:8181/v1" "play"
        "package play" { status := 200, code := none, message := none }).result =
      .ok true ∧
    update_opa_policy_fromstring "http://localhost:8181/v1" "play"
        "package play" { status := 400, code := some "rego_parse_error"
                         message := some "bad policy" } =
      { request := some "http://localhost:8181/v1/policies/play"
        result := .regoParseError (some "rego_parse_error") (some "bad policy") } := by
  constructor
  · exact (C5_policy_update_fromstring "http://localhost:8181/v1" "play"
      "package play" { status := 200, code := none, message := none }
      (by decide)).1.mpr rfl
  · have h := (C5_policy_update_fromstring "http://localhost:8181/v1" "play"
      "package play" { status := 400, code := some "rego_parse_error"
                       message := some "bad policy" }
      (by decide)).2.2 (by decide)
    rw [h]; rfl

/-- C6, counterexample: on the secure transport a non-200 status does not
raise at all — `__get_opa_raw_data` returns the tuple `(status, "not found")`
whatever the service's body said, so no error carrying the service's code and
message is raised; and on the plain transport even status 200 does not return
the parsed body — `response.jsons()` raises `AttributeError`. -/
theorem C6_not_found_counterexample :
    get_opa_raw_data true 404 "service error body A" = .pair 404 "not found" ∧
    get_opa_raw_data true 404 "service error body B" = .pair 404 "not found" ∧
    get_opa_raw_data false 200 "service body" = .attributeError := by
  exact ⟨rfl, rfl, rfl⟩

/-- C6 (amended): on the secure transport `get_opa_raw_data` returns the
decoded response body when the status is 200 and for every other status
returns the tuple `(status, "not found")` instead of raising; on the plain
transport every call raises `AttributeError` (opa.py line 267 calls the
nonexistent `response.jsons()`) before the status is examined. -/
theorem C6_raw_data_result (code : Nat) (decoded : String) :
    (code = 200 → get_opa_raw_data true code decoded = .body decoded) ∧
    (code ≠ 200 → get_opa_raw_data true code decoded = .pair code "not found") ∧
    get_opa_raw_data false code decoded = .attributeError := by
  refine ⟨fun h => ?_, fun h => ?_, rfl⟩ <;> simp [get_opa_raw_data, h]

/-- C6, witness: the amended theorem at status 200 and 500 on the secure
transport and at status 200 on the plain transport. -/
theorem C6_raw_data_result_witness :
    get_opa_raw_data true 200 "raw data" = .body "raw data" ∧
    get_opa_raw_data true 500 "raw data" = .pair 500 "not found" ∧
    get_opa_raw_data false 200 "raw data" = .attributeError :=
  ⟨(C6_raw_data_result 200 "raw data").1 rfl,
   (C6_raw_data_result 500 "raw data").2.1 (by decide),
   (C6_raw_data_result 200 "raw data").2.2⟩

/-- C7, counterexample: a host starting with `https://` combined with
`ssl=False` is not rejected — construction succeeds and resolves the root
URL `https://h:8181/v1`, contradicting the claim's third conjunct. -/
theorem C7_https_insecure_counterexample :
    opaClientInit "https://h" 8181 "v1" false none = .ok "https://h:8181/v1" false := by
  decide

/-- C7 (amended): at construction, `ssl=True` with an absent or empty
certificate path raises `SSLError`; a host starting with `http://` combined
with `ssl=True` (and a certificate) raises `SSLError`; but a host starting
with `https://` is accepted verbatim whatever the `ssl` flag — in particular
with `ssl=False` no error is raised. -/
theorem C7_init_config_errors (host version : String) (port : Nat)
    (cert : Option String) :
    (certFalsy cert = true →
      opaClientInit host port version true cert =
        .sslError "ssl=True" "Make sure you  provide cert file") ∧
    (certFalsy cert = false → pyStartswith (pyLstrip host) "http://" = true →
      opaClientInit host port version true cert =
        .sslError "ssl=True" "With ssl enabled not possible to have connection with http") ∧
    (∀ ssl : Bool, (ssl = true → certFalsy cert = false) →
      pyStartswith (pyLstrip host) "https://" = true →
      opaClientInit host port version ssl cert =
        .ok (pyLstrip host ++ ":" ++ toString port ++ "/" ++ version) ssl) := by
  refine ⟨fun hc => ?_, fun hc hp => ?_, fun ssl hc hp => ?_⟩
  · simp [opaClientInit, hc]
  · have hps := pyStartswith_http_not_https (pyLstrip host) hp
    simp [opaClientInit, hc, hp, hps]
  · cases ssl with
    | false => simp [opaClientInit, hp]
    | true => simp [opaClientInit, hc rfl, hp]

/-- C7, witness: the amended theorem at concrete configurations — missing
certificate, `http://` host with ssl, and an `https://` host accepted with
`ssl=True` and a certificate. -/
theorem C7_init_config_errors_witness :
    opaClientInit "localhost" 8181 "v1" true none =
      .sslError "ssl=True" "Make sure you  provide cert file" ∧
    opaClientInit "http://h" 8181 "v1" true (some "ca.pem") =
      .sslError "ssl=True" "With ssl enabled not possible to have connection with http" ∧
    opaClientInit "https://h" 8181 "v1" true (some "ca.pem") =
      .ok "https://h:8181/v1" true := by
  refine ⟨(C7_init_config_errors "localhost" "v1" 8181 none).1 rfl, ?_, ?_⟩
  · exact (C7_init_config_errors "http://h" "v1" 8181 (some "ca.pem")).2.1
      (by decide) (by decide)
  · have h := (C7_init_config_errors "https://h" "v1" 8181 (some "ca.pem")).2.2
      true (fun _ => by decide) (by decide)
    rw [h]; rfl

/-- C8: root URL resolution is the pure function `opaClientInit`.  For a host
that (after stripping leading whitespace) carries no `http://` or `https://`
prefix, the root URL is `scheme ++ host ++ ":" ++ port ++ "/" ++ version`
with the scheme chosen by the secure flag; a host already carrying a scheme
is used verbatim as the authority. -/
theorem C8_root_url_resolution (host version : String) (port : Nat) (ssl : Bool)
    (cert : Option String) (hcert : ssl = true → certFalsy cert = false) :
    (pyStartswith (pyLstrip host) "https://" = false →
      pyStartswith (pyLstrip host) "http://" = false →
      opaClientInit host port version ssl cert =
        .ok ((if ssl then "https://" else "http://") ++ pyLstrip host ++ ":" ++
          toString port ++ "/" ++ version) ssl) ∧
    (pyStartswith (pyLstrip host) "https://" = true →
      opaClientInit host port version ssl cert =
        .ok (pyLstrip host ++ ":" ++ toString port ++ "/" ++ version) ssl) ∧
    (pyStartswith (pyLstrip host) "http://" = true → ssl = false →
      opaClientInit host port version ssl cert =
        .ok (pyLstrip host ++ ":" ++ toString port ++ "/" ++ version) ssl) := by
  refine ⟨fun h1 h2 => ?_, fun h1 => ?_, fun h1 h2 => ?_⟩
  · cases ssl with
    | false => simp [opaClientInit, h1, h2]
    | true => simp [opaClientInit, hcert rfl, h1, h2]
  · cases ssl with
    | false => simp [opaClientInit, h1]
    | true => simp [opaClientInit, hcert rfl, h1]
  · have hps := pyStartswith_http_not_https (pyLstrip host) h1
    subst h2
    simp [opaClientInit, h1, hps]

/-- C8, witness: the spec's own example — host `h`, secure mode with a
certificate, port 8181, version `v1` gives root `https://h:8181/v1` — and a
host with leading whitespace is stripped before the scheme is prepended. -/
theorem C8_root_url_resolution_witness :
    opaClientInit "h" 8181 "v1" true (some "ca.pem") = .ok "https://h:8181/v1" true ∧
    opaClientInit "  h" 8181 "v1" false none = .ok "http://h:8181/v1" false := by
  constructor
  · have h := (C8_root_url_resolution "h" "v1" 8181 true (some "ca.pem")
      (fun _ => rfl)).1 (by decide) (by decide)
    rw [h]; rfl
  · have h := (C8_root_url_resolution "  h" "v1" 8181 false none
      (fun hx => nomatch hx)).1 (by decide) (by decide)
    rw [h]; rfl

/-- C9: `delete_opa_policy` returns `True` exactly on status 200 and raises
`PolicyNotFoundError` with the service body's code and message otherwise;
`delete_opa_data` returns `True` exactly on status 204 and raises
`DeleteDataError` with the body's code and message otherwise. -/
theorem C9_delete_status (status : Nat) (code message : Option String) :
    (delete_opa_policy status code message = .ok true ↔ status = 200) ∧
    (status ≠ 200 →
      delete_opa_policy status code message = .policyNotFoundError code message) ∧
    (delete_opa_data status code message = .ok true ↔ status = 204) ∧
    (status ≠ 204 →
      delete_opa_data status code message = .deleteDataError code message) := by
  refine ⟨?_, fun h => ?_, ?_, fun h => ?_⟩
  · by_cases h : status = 200 <;> simp [delete_opa_policy, h]
  · simp [delete_opa_policy, h]
  · by_cases h : status = 204 <;> simp [delete_opa_data, h]
  · simp [delete_opa_data, h]

/-- C9, witness: the theorem at concrete statuses on both the success and
the raising branch of each delete operation. -/
theorem C9_delete_status_witness :
    delete_opa_policy 200 none none = .ok true ∧
    delete_opa_policy 404 (some "code1") (some "message1") =
      .policyNotFoundError (some "code1") (some "message1") ∧
    delete_opa_data 204 none none = .ok true ∧
    delete_opa_data 500 (some "code1") (some "message1") =
      .deleteDataError (some "code1") (some "message1") :=
  ⟨(C9_delete_status 200 none none).1.mpr rfl,
   (C9_delete_status 404 (some "code1") (some "message1")).2.1 (by decide),
   (C9_delete_status 204 none none).2.2.1.mpr rfl,
   (C9_delete_status 500 (some "code1") (some "message1")).2.2.2 (by decide)⟩

/-- C10: with an empty (falsy) policy string, `update_opa_policy_fromstring`
issues no request and returns `False` without raising; with an empty (falsy)
filepath, `update_opa_policy_fromfile` reads no file, issues no request and
returns Python's `None`. -/
theorem C10_empty_inputs_no_request (rootURL endpoint contents : String)
    (resp : HttpResp) :
    update_opa_policy_fromstring rootURL endpoint "" resp =
      { request := none, result := .ok false } ∧
    update_opa_policy_fromfile rootURL endpoint "" contents resp =
      { fileRead := none, request := none, result := none } := by
  exact ⟨rfl, rfl⟩

end Opa
